import Mathlib

/-!
Server-status presence bot: embedding of `src/index.js`.

The program polls a statistics API and mirrors a formatted player count as the
presence text of a chat bot.  This file embeds its functions as Lean
definitions and proves the properties stated for them.

Modelling conventions

* A JavaScript value is a `JSValue`: JSON data, `undefined`, `NaN`, and opaque
  `native` values (builtin functions and prototype objects, which only a
  property walk through the prototype chain can reach).
* Everything the standard library of the engine decides and the source does
  not (inherited properties, string-to-number conversion, rendering of huge
  numbers) is a field of `Runtime`; theorems quantify over every runtime.
* An `async` function is a `Run`: the list of effects it performed, in order,
  and how it completed (normally with a value, or by raising).  The outcome of
  each call into an external library (the HTTP GET, the set-presence call) is
  an argument.
* Thrown values are `Error` instances (`JSError`); log lines are recorded by
  level and message, without the timestamp.
-/

namespace ServerMonitor

/-! ## Values -/

/-- The value carried by a raised exception: an `Error` instance with its
name and message, or an `AxiosError` with its message and, when a response was
received, the HTTP status of that response. -/
inductive JSError where
  | error (name message : String)
  | axios (message : String) (responseStatus : Option Nat)

/-- JavaScript values that the program can meet.  `num n` is an integer-valued
number; `numOther text positive` is any other non-NaN number (a fraction or an
infinity), given by its rendering and by whether it exceeds zero; `native` is
a value supplied by the engine that is not data (a builtin function, a
prototype object). -/
inductive JSValue where
  | undefined
  | null
  | bool (b : Bool)
  | num (n : Int)
  | nan
  | numOther (text : String) (positive : Bool)
  | str (s : String)
  | arr (items : List JSValue)
  | obj (fields : List (String × JSValue))
  | native (tag : String)

/-- The part of the engine that the source relies on without defining it. -/
structure Runtime where
  /-- Result of `v[key]` when `key` is not an own data field of `v`: the
  prototype chain and the exotic properties of strings and arrays.  An
  accessor of the engine may throw. -/
  builtin : JSValue → String → Except JSError JSValue
  /-- Conversion of a native value to a string. -/
  nativeToString : String → Except JSError String
  /-- Evaluation of `v > 0` for a native value `v`. -/
  nativeIsPositive : String → Except JSError Bool
  /-- Whether the number denoted by a string (StringToNumber) exceeds zero. -/
  stringIsPositive : String → Bool
  /-- Rendering of an integer-valued number of magnitude `2^53` or more: the
  shortest digits that read back as the same number, in exponent form from
  `10^21` on. -/
  largeNumberToString : Int → String
  /-- Rendering of the quotient `a / b` when it is not an integer. -/
  fractionToString : Int → Int → String

/-- The error raised when an object has no usable conversion to a primitive. -/
def cannotConvert : JSError :=
  .error "TypeError" "Cannot convert object to primitive value"

/-- The error raised by a property read on `undefined` or `null`. -/
def cannotRead : JSError :=
  .error "TypeError" "Cannot read properties of undefined or null"

/-- JavaScript truthiness (ToBoolean). -/
def truthy : JSValue → Bool
  | .undefined => false
  | .null => false
  | .nan => false
  | .bool b => b
  | .num n => n != 0
  | .str s => s != ""
  | _ => true

/-- Whether a value is `undefined` or `null` (the left operand test of `??`
and of `?.`). -/
def isNullish : JSValue → Bool
  | .undefined => true
  | .null => true
  | _ => false

/-- The expression `a ?? b`. -/
def nullishOr (a b : JSValue) : JSValue :=
  if isNullish a then b else a

/-- The expression `a || b`. -/
def logicalOr (a b : JSValue) : JSValue :=
  if truthy a then a else b

/-- Own data field of a plain object, by key. -/
def ownField (fields : List (String × JSValue)) (key : String) : Option JSValue :=
  fields.lookup key

/-- The expression `v[key]`. -/
def getProp (rt : Runtime) (v : JSValue) (key : String) : Except JSError JSValue :=
  match v with
  | .undefined => .error cannotRead
  | .null => .error cannotRead
  | .obj fields =>
    match ownField fields key with
    | some x => .ok x
    | none => rt.builtin v key
  | _ => rt.builtin v key

/-- Number to string for an integer-valued number.  Below `2^53` in
magnitude every integer is a number value and the shortest digits that read
back as it are its plain decimal numeral; from `2^53` on the engine rounds
(`2^60` prints as 1152921504606847000), which is left to the runtime. -/
def numberToString (rt : Runtime) (n : Int) : String :=
  if n.natAbs < 2 ^ 53 then toString n else rt.largeNumberToString n

mutual
/-- ToString, as applied by a template literal `${v}`.  A plain object is
converted through `toString` and `valueOf`: an own data field named
`toString` shadows the inherited method and is not callable, the inherited
`valueOf` returns the object itself, so the conversion raises. -/
def jsToString (rt : Runtime) : JSValue → Except JSError String
  | .undefined => .ok "undefined"
  | .null => .ok "null"
  | .bool b => .ok (if b then "true" else "false")
  | .num n => .ok (numberToString rt n)
  | .nan => .ok "NaN"
  | .numOther text _ => .ok text
  | .str s => .ok s
  | .arr items => joinItems rt items
  | .obj fields =>
    match ownField fields "toString" with
    | some _ => .error cannotConvert
    | none => .ok "[object Object]"
  | .native tag => rt.nativeToString tag
/-- The method `Array.prototype.join` with the default separator. -/
def joinItems (rt : Runtime) : List JSValue → Except JSError String
  | [] => .ok ""
  | [v] => itemToString rt v
  | v :: w :: rest =>
    match itemToString rt v with
    | .error e => .error e
    | .ok s =>
      match joinItems rt (w :: rest) with
      | .error e => .error e
      | .ok t => .ok (s ++ "," ++ t)
/-- Conversion of one array element inside `join`: `undefined` and `null`
give the empty string. -/
def itemToString (rt : Runtime) : JSValue → Except JSError String
  | .undefined => .ok ""
  | .null => .ok ""
  | .bool b => .ok (if b then "true" else "false")
  | .num n => .ok (numberToString rt n)
  | .nan => .ok "NaN"
  | .numOther text _ => .ok text
  | .str s => .ok s
  | .arr items => joinItems rt items
  | .obj fields =>
    match ownField fields "toString" with
    | some _ => .error cannotConvert
    | none => .ok "[object Object]"
  | .native tag => rt.nativeToString tag
end

/-- The expression `v > 0`: `v` is converted to a primitive, then to a number;
the comparison is false when that number is NaN. -/
def isGreaterThanZero (rt : Runtime) : JSValue → Except JSError Bool
  | .undefined => .ok false
  | .null => .ok false
  | .bool b => .ok b
  | .num n => .ok (decide (0 < n))
  | .nan => .ok false
  | .numOther _ positive => .ok positive
  | .str s => .ok (rt.stringIsPositive s)
  | .arr items =>
    match joinItems rt items with
    | .error e => .error e
    | .ok s => .ok (rt.stringIsPositive s)
  | .obj fields =>
    match ownField fields "toString" with
    | some _ => .error cannotConvert
    | none => .ok false
  | .native tag => rt.nativeIsPositive tag

/-! ## Formatting -/

/-- Source: `formatStatusText` (lines 66-72). -/
def formatStatusText (rt : Runtime) (players maxPlayers joiningPlayers : JSValue) :
    Except JSError String :=
  match jsToString rt players with
  | .error e => .error e
  | .ok p =>
    match jsToString rt maxPlayers with
    | .error e => .error e
    | .ok m =>
      let content := p ++ "/" ++ m
      match isGreaterThanZero rt joiningPlayers with
      | .error e => .error e
      | .ok true =>
        match jsToString rt joiningPlayers with
        | .error e => .error e
        | .ok j => .ok ("[" ++ (content ++ (" - " ++ j ++ " joining")) ++ "]")
      | .ok false => .ok ("[" ++ content ++ "]")

/-! ## Dotted-path lookup -/

/-- Split a list of characters at every occurrence of a separator, as
`String.prototype.split` does: the empty input gives one empty segment. -/
def splitChars (sep : Char) : List Char → List (List Char)
  | [] => [[]]
  | c :: rest =>
    if c = sep then [] :: splitChars sep rest
    else
      match splitChars sep rest with
      | [] => [[c]]
      | seg :: segs => (c :: seg) :: segs

/-- The expression `path.split('.')`. -/
def splitPath (path : String) : List String :=
  (splitChars '.' path.data).map String.mk

/-- The callback of the `reduce` in `getNestedValue`:
`(value && value[key] !== undefined) ? value[key] : undefined`. -/
def nestedStep (rt : Runtime) (value : JSValue) (key : String) : Except JSError JSValue :=
  if truthy value then
    match getProp rt value key with
    | .error e => .error e
    | .ok .undefined => .ok .undefined
    | .ok _ => getProp rt value key
  else .ok .undefined

/-- The call `keys.reduce(callback, value)`. -/
def reduceKeys (rt : Runtime) : JSValue → List String → Except JSError JSValue
  | value, [] => .ok value
  | value, key :: rest =>
    match nestedStep rt value key with
    | .error e => .error e
    | .ok next => reduceKeys rt next rest

/-- Source: `getNestedValue` (lines 62-64). -/
def getNestedValue (rt : Runtime) (obj : JSValue) (path : String) : Except JSError JSValue :=
  reduceKeys rt obj (splitPath path)

/-- The joining count of line 100: `getNestedValue(attributes, path) ?? 0`. -/
def resolveJoining (rt : Runtime) (attributes : JSValue) (path : String) :
    Except JSError JSValue :=
  match getNestedValue rt attributes path with
  | .error e => .error e
  | .ok v => .ok (nullishOr v (.num 0))

/-- The value stored in a document under a list of keys, each key being an
own field of the object reached so far; `none` when some key is not. -/
def storedAt : JSValue → List String → Option JSValue
  | value, [] => some value
  | .obj fields, key :: rest =>
    match ownField fields key with
    | some next => storedAt next rest
    | none => none
  | _, _ :: _ => none

/-- Where the walk along own fields stops: the value reached and the first
key that is not an own field of it; `none` when every key is present. -/
def firstAbsent : JSValue → List String → Option (JSValue × String)
  | _, [] => none
  | .obj fields, key :: rest =>
    match ownField fields key with
    | some next => firstAbsent next rest
    | none => some (.obj fields, key)
  | value, key :: _ => some (value, key)

/-! ## Configuration -/

/-- The environment variables read by the program; `none` is an unset one. -/
structure Env where
  DISCORD_TOKEN : Option String
  BATTLEMETRICS_SERVER_ID : Option String
  UPDATE_INTERVAL_SECONDS : Option String
  BM_JOINING_FIELD : Option String

/-- The record `config` (lines 10-16).  `updateIntervalMs = none` is NaN. -/
structure Config where
  discordToken : Option String
  battlemetricsServerId : Option String
  updateIntervalMs : Option Int
  joiningPlayersField : String
  apiBaseUrl : String

/-- The expression `process.env.X || fallback`: an unset or empty variable
gives the fallback. -/
def envOr (value : Option String) (fallback : String) : String :=
  match value with
  | none => fallback
  | some s => if s = "" then fallback else s

/-- White space and line terminators skipped by `parseInt` (StrWhiteSpaceChar). -/
def isWhiteSpace (c : Char) : Bool :=
  let n := c.toNat
  n = 0x09 || n = 0x0A || n = 0x0B || n = 0x0C || n = 0x0D || n = 0x20 || n = 0xA0 ||
  n = 0x1680 || (0x2000 ≤ n && n ≤ 0x200A) || n = 0x2028 || n = 0x2029 || n = 0x202F ||
  n = 0x205F || n = 0x3000 || n = 0xFEFF

/-- Value of a list of decimal digits. -/
def digitsValue (digits : List Char) : Nat :=
  digits.foldl (fun acc c => acc * 10 + (c.toNat - 48)) 0

/-- The call `parseInt(s, 10)`: leading white space is skipped, one sign is
read, then the longest run of decimal digits; what follows is ignored; `none`
is NaN (no digit).  The result is kept exact: the engine rounds a very long
numeral to the nearest number, which does not change its order with 15. -/
def parseInt10 (s : String) : Option Int :=
  let trimmed := s.data.dropWhile isWhiteSpace
  let signed : Bool × List Char :=
    match trimmed with
    | '-' :: rest => (true, rest)
    | '+' :: rest => (false, rest)
    | _ => (false, trimmed)
  let digits := signed.2.takeWhile Char.isDigit
  if digits.isEmpty then none
  else if signed.1 then some (-(digitsValue digits : Int))
  else some (digitsValue digits : Int)

/-- Source: `config` (lines 10-16). -/
def config (env : Env) : Config where
  discordToken := env.DISCORD_TOKEN
  battlemetricsServerId := env.BATTLEMETRICS_SERVER_ID
  updateIntervalMs := (parseInt10 (envOr env.UPDATE_INTERVAL_SECONDS "60")).map (fun n => n * 1000)
  joiningPlayersField := envOr env.BM_JOINING_FIELD "details.rust_queued_players"
  apiBaseUrl := "https://api.battlemetrics.com/servers"

/-! ## Effects -/

/-- The activity categories the program uses. -/
inductive ActivityType where
  | listening
  | watching
  deriving DecidableEq

/-- The platform status values the program uses. -/
inductive PresenceUpdateStatus where
  | online
  | doNotDisturb
  deriving DecidableEq

/-- An observable effect. -/
inductive Event where
  | logInfo (message : String)
  | logError (message : String) (error : Option JSError)
  | httpGet (url : String) (timeoutMs : Nat)
  | setPresence (name : String) (activityType : ActivityType) (status : PresenceUpdateStatus)
  | setInterval (delayMs : Option Int)

/-- An execution of an `async` function: its effects in order, and its
completion, normal with a value or abrupt with a raised error. -/
structure Run (α : Type) where
  trace : List Event
  result : Except JSError α

/-- Normal completion without effect. -/
def Run.pure {α : Type} (a : α) : Run α :=
  ⟨[], .ok a⟩

/-- Evaluation of an effect-free expression that may raise. -/
def Run.lift {α : Type} (x : Except JSError α) : Run α :=
  ⟨[], x⟩

/-- Sequencing: the continuation runs only after a normal completion. -/
def Run.andThen {α β : Type} (r : Run α) (f : α → Run β) : Run β :=
  match r.result with
  | .error e => ⟨r.trace, .error e⟩
  | .ok a => ⟨r.trace ++ (f a).trace, (f a).result⟩

/-- The statement `try body catch (error) handler`. -/
def Run.tryCatch {α : Type} (body : Run α) (handler : JSError → Run α) : Run α :=
  match body.result with
  | .ok a => ⟨body.trace, .ok a⟩
  | .error e => ⟨body.trace ++ (handler e).trace, (handler e).result⟩

/-- Source: `logInfo` (lines 33-35). -/
def logInfo (message : String) : Run Unit :=
  ⟨[.logInfo message], .ok ()⟩

/-- Source: `logError` (lines 37-39). -/
def logError (message : String) (error : Option JSError) : Run Unit :=
  ⟨[.logError message error], .ok ()⟩

/-- Execution of a function that may end the process: its effects, and the
exit status when `process.exit` was called. -/
structure Startup where
  trace : List Event
  exit : Option Nat

/-- The test `!cfg[key]` for a setting that is a string or `undefined`. -/
def isMissing (value : Option String) : Bool :=
  match value with
  | none => true
  | some s => s = ""

/-- The rejection of the poll interval (lines 26-27). -/
def rejectInterval : Startup :=
  ⟨[.logError "Invalid UPDATE_INTERVAL_SECONDS. Must be a number >= 15." none], some 1⟩

/-- Source: `validateConfig` (lines 18-29). -/
def validateConfig (cfg : Config) : Startup :=
  let required := [("discordToken", cfg.discordToken),
    ("battlemetricsServerId", cfg.battlemetricsServerId)]
  let missing := (required.filter (fun entry => isMissing entry.2)).map Prod.fst
  if missing.length > 0 then
    ⟨[.logError ("Critical configuration missing: " ++ ", ".intercalate missing ++
      ". Please check your .env file or environment variables.") none], some 1⟩
  else
    match cfg.updateIntervalMs with
    | none => rejectInterval
    | some ms => if ms < 15000 then rejectInterval else ⟨[], none⟩

/-! ## Fetching -/

/-- What `axios.get` does: it resolves with a response (status and parsed
body) or rejects with an error (no connection, timeout, status outside 2xx). -/
inductive HttpOutcome where
  | response (status : Nat) (data : JSValue)
  | failure (error : JSError)

/-- The call `axios.get(url, options)` awaited. -/
def axiosGet (url : String) (timeoutMs : Nat) (outcome : HttpOutcome) : Run (Nat × JSValue) :=
  match outcome with
  | .response status data => ⟨[.httpGet url timeoutMs], .ok (status, data)⟩
  | .failure error => ⟨[.httpGet url timeoutMs], .error error⟩

/-- The expression `response.data?.data?.attributes`. -/
def optionalAttributes (rt : Runtime) (data : JSValue) : Except JSError JSValue :=
  if isNullish data then .ok .undefined
  else
    match getProp rt data "data" with
    | .error e => .error e
    | .ok inner => if isNullish inner then .ok .undefined else getProp rt inner "attributes"

/-- The expression `response.data.data.attributes`. -/
def directAttributes (rt : Runtime) (data : JSValue) : Except JSError JSValue :=
  match getProp rt data "data" with
  | .error e => .error e
  | .ok inner => getProp rt inner "attributes"

/-- A setting that is a string or `undefined`, inside a template literal. -/
def settingToString (value : Option String) : String :=
  match value with
  | none => "undefined"
  | some s => s

/-- The expression `error.response?.status || 'N/A'` inside a template
literal. -/
def statusOrNA (status : Option Nat) : String :=
  match status with
  | none => "N/A"
  | some n => if n = 0 then "N/A" else toString n

/-- Lines 48-49: the response is rejected. -/
def rejectResponse (status : Nat) : Run JSValue :=
  (logError ("Received invalid data structure or non-200 status (" ++ toString status ++
    ") from BattleMetrics.") none).andThen fun _ => Run.pure .null

/-- Source: `fetchBattleMetricsData` (lines 41-60). -/
def fetchBattleMetricsData (rt : Runtime) (cfg : Config) (serverId : Option String)
    (http : HttpOutcome) : Run JSValue :=
  let apiUrl := cfg.apiBaseUrl ++ "/" ++ settingToString serverId
  (logInfo ("Fetching data from BattleMetrics for server " ++ settingToString serverId ++
    "...")).andThen fun _ =>
  Run.tryCatch
    ((axiosGet apiUrl 10000 http).andThen fun response =>
      if response.1 ≠ 200 then rejectResponse response.1
      else
        (Run.lift (optionalAttributes rt response.2)).andThen fun attributes =>
          if truthy attributes then Run.lift (directAttributes rt response.2)
          else rejectResponse response.1)
    (fun error =>
      match error with
      | .axios message status =>
        (logError ("HTTP error fetching BattleMetrics data: " ++ message ++ ". Status: " ++
          statusOrNA status) none).andThen fun _ => Run.pure .null
      | other =>
        (logError "Failed to fetch BattleMetrics data." (some other)).andThen fun _ =>
          Run.pure .null)

/-! ## Publishing -/

/-- What the chat client does when asked to set the presence: the client has
no user yet (the optional call is skipped), the call returns, or it throws. -/
inductive PresenceOutcome where
  | noUser
  | done
  | failure (error : JSError)

/-- The expression `discordClient.user?.setPresence(...)` awaited. -/
def setPresence (name : String) (activityType : ActivityType) (status : PresenceUpdateStatus)
    (outcome : PresenceOutcome) : Run Unit :=
  match outcome with
  | .noUser => ⟨[], .ok ()⟩
  | .done => ⟨[.setPresence name activityType status], .ok ()⟩
  | .failure error => ⟨[.setPresence name activityType status], .error error⟩

/-- Source: `updatePresence` (lines 78-87). -/
def updatePresence (activityName : String) (activityType : ActivityType)
    (status : PresenceUpdateStatus) (outcome : PresenceOutcome) : Run Unit :=
  Run.tryCatch (setPresence activityName activityType status outcome)
    (fun error => logError "Failed to update Discord presence." (some error))

/-! ## One cycle -/

/-- The test `v === 'N/A'`. -/
def isNotAvailable : JSValue → Bool
  | .str s => s = "N/A"
  | _ => false

/-- Lines 97-110 of `refreshServerStatus`: what a cycle does with a fetched
document. -/
def processAttributes (rt : Runtime) (cfg : Config) (attributes : JSValue)
    (presence : PresenceOutcome) : Run Unit :=
  (Run.lift (getProp rt attributes "players")).andThen fun rawPlayers =>
  (Run.lift (getProp rt attributes "maxPlayers")).andThen fun rawMaxPlayers =>
  (Run.lift (getProp rt attributes "name")).andThen fun rawName =>
  (Run.lift (resolveJoining rt attributes cfg.joiningPlayersField)).andThen fun joiningPlayers =>
    let players := nullishOr rawPlayers (.str "N/A")
    let maxPlayers := nullishOr rawMaxPlayers (.str "N/A")
    let serverName := logicalOr rawName (.str "Unknown Server")
    if isNotAvailable players || isNotAvailable maxPlayers then
      (Run.lift (jsToString rt serverName)).andThen fun nameText =>
      (logError ("Could not extract player counts from API response for server " ++ nameText)
        none).andThen fun _ =>
      updatePresence "Data Error" .watching .doNotDisturb presence
    else
      (Run.lift (formatStatusText rt players maxPlayers joiningPlayers)).andThen fun statusText =>
      (Run.lift (jsToString rt serverName)).andThen fun nameText =>
      (logInfo ("Server: " ++ nameText ++ " | Status: " ++ statusText)).andThen fun _ =>
      updatePresence statusText .listening .online presence

/-- Source: `refreshServerStatus` (lines 89-111). -/
def refreshServerStatus (rt : Runtime) (cfg : Config) (http : HttpOutcome)
    (presence : PresenceOutcome) : Run Unit :=
  (fetchBattleMetricsData rt cfg cfg.battlemetricsServerId http).andThen fun attributes =>
    if truthy attributes then processAttributes rt cfg attributes presence
    else updatePresence "API Error" .watching .doNotDisturb presence

/-! ## Startup -/

/-- The expression `config.updateIntervalMs / 1000` inside a template
literal. -/
def intervalSeconds (rt : Runtime) (ms : Option Int) : String :=
  match ms with
  | none => "NaN"
  | some n => if n % 1000 = 0 then numberToString rt (n / 1000) else rt.fractionToString n 1000

/-- The call `setInterval(refreshServerStatus, delay)`. -/
def setInterval (delayMs : Option Int) : Run Unit :=
  ⟨[.setInterval delayMs], .ok ()⟩

/-- Source: the handler of the `ready` event (lines 113-123).  `first` and
`onError` are the outcomes of the set-presence call of the first cycle and of
the one made by the `catch` block. -/
def onReady (rt : Runtime) (cfg : Config) (userTag : String) (http : HttpOutcome)
    (first onError : PresenceOutcome) : Run Unit :=
  (logInfo ("Logged in as " ++ userTag)).andThen fun _ =>
  (logInfo ("Starting status updates for server ID " ++ settingToString cfg.battlemetricsServerId
    ++ " every " ++ intervalSeconds rt cfg.updateIntervalMs ++ " seconds.")).andThen fun _ =>
  Run.tryCatch
    ((refreshServerStatus rt cfg http first).andThen fun _ => setInterval cfg.updateIntervalMs)
    (fun error =>
      (logError "Error during initial status update." (some error)).andThen fun _ =>
      updatePresence "Init Error" .watching .doNotDisturb onError)

/-- Whether an effect schedules the repeating timer. -/
def Event.isSetInterval : Event → Bool
  | .setInterval _ => true
  | _ => false

/-- Whether an effect is a set-presence call. -/
def Event.isSetPresence : Event → Bool
  | .setPresence _ _ _ => true
  | _ => false

/-- A runtime used to evaluate examples: it knows the members of
`Object.prototype` (inherited by every plain object) and nothing else; its
other fields are placeholders that no example evaluates. -/
def Runtime.sample : Runtime where
  builtin v key :=
    match v with
    | .obj _ =>
      if ["constructor", "hasOwnProperty", "isPrototypeOf", "propertyIsEnumerable",
          "toLocaleString", "toString", "valueOf", "__proto__", "__defineGetter__",
          "__defineSetter__", "__lookupGetter__", "__lookupSetter__"].contains key
      then .ok (.native ("Object.prototype." ++ key))
      else .ok .undefined
    | _ => .ok .undefined
  nativeToString tag := .ok ("function " ++ tag)
  nativeIsPositive _ := .ok false
  stringIsPositive s := !s.isEmpty && s.data.all Char.isDigit && s.data.any (fun c => c != '0')
  largeNumberToString n := toString n
  fractionToString a b := toString a ++ "/" ++ toString b

/-! ## Vocabulary of the specification -/

/-- A fetch that fails, as the specification lists the cases: the request
itself fails (no connection, timeout, rejected status), the status is not
200, or the body has no `data.attributes`. -/
def FetchFails (rt : Runtime) : HttpOutcome → Prop
  | .failure _ => True
  | .response status data => status ≠ 200 ∨ optionalAttributes rt data = .ok .undefined

/-- The document a fetch delivers, in the words of the specification with
"present" read as truthy: `data.attributes` of a 200 response when it is
truthy, the absence signal otherwise. -/
def deliveredDocument (rt : Runtime) : HttpOutcome → JSValue
  | .failure _ => .null
  | .response status data =>
    if status = 200 then
      match optionalAttributes rt data with
      | .ok a => if truthy a then a else .null
      | .error _ => .null
    else .null

/-- Whether a value is a JSON object (not an array). -/
def isObject : JSValue → Bool
  | .obj _ => true
  | _ => false

/-- Whether a value is a number. -/
def isNumber : JSValue → Bool
  | .num _ => true
  | .nan => true
  | .numOther _ _ => true
  | _ => false

/-- Whether a value is a primitive: neither an object, an array nor a native
value. -/
def isPrimitive : JSValue → Bool
  | .arr _ => false
  | .obj _ => false
  | .native _ => false
  | _ => true

/-- The four reads of lines 97-100 succeed and give these values: the raw
`players`, `maxPlayers` and `name` fields and the resolved joining count. -/
def Reads (rt : Runtime) (cfg : Config) (attributes p m n j : JSValue) : Prop :=
  getProp rt attributes "players" = .ok p ∧
  getProp rt attributes "maxPlayers" = .ok m ∧
  getProp rt attributes "name" = .ok n ∧
  resolveJoining rt attributes cfg.joiningPlayersField = .ok j

/-- A configuration used in examples: both required settings present, the
optional ones unset. -/
def sampleConfig : Config :=
  config ⟨some "token", some "12345", none, none⟩

/-- A response body carrying an attributes document. -/
def bodyOf (attributes : JSValue) : JSValue :=
  .obj [("data", .obj [("attributes", attributes)])]

/-- A document whose `name` is an object with an own `toString` entry. -/
def unprintableName : JSValue :=
  .obj [("name", .obj [("toString", .num 1)])]

/-- A document with both counts whose `name` is an object with an own
`toString` entry. -/
def countsWithUnprintableName : JSValue :=
  .obj [("players", .num 45), ("maxPlayers", .num 100),
    ("name", .obj [("toString", .num 1)])]

/-- The document `{a: {b: {c: 7}}}` of the specification. -/
def nestedSeven : JSValue :=
  .obj [("a", .obj [("b", .obj [("c", .num 7)])])]

/-- The document `{a: {b: {}}}` of the specification. -/
def nestedEmpty : JSValue :=
  .obj [("a", .obj [("b", .obj [])])]

/-- The document `{a: null}`. -/
def nullLeaf : JSValue :=
  .obj [("a", .null)]

/-- An environment with both required settings and the given poll interval. -/
def envWithInterval (interval : Option String) : Env :=
  ⟨some "token", some "12345", interval, none⟩

/-- A document with zero players and zero capacity. -/
def emptyServer : JSValue :=
  .obj [("players", .num 0), ("maxPlayers", .num 0)]

/-! ## Theorems -/

/-- C1: for non-negative integers `p`, `m`, `j`, `formatStatusText(p, m, j)`
is `[P/M]` when `j = 0` and `[P/M - J joining]` otherwise, with `P`, `M`, `J`
the renderings of the three numbers; below `2^53`, where the rendering of an
integer is its plain decimal numeral, that is `[p/m]` and `[p/m - j joining]`. -/
theorem formatStatusText_counts (rt : Runtime) (p m j : Nat) :
    formatStatusText rt (.num p) (.num m) (.num j) =
      .ok (if j = 0 then "[" ++ numberToString rt p ++ "/" ++ numberToString rt m ++ "]"
        else "[" ++ numberToString rt p ++ "/" ++ numberToString rt m ++ " - " ++
          numberToString rt j ++ " joining]") ∧
    (p < 2 ^ 53 → m < 2 ^ 53 → j < 2 ^ 53 →
      formatStatusText rt (.num p) (.num m) (.num j) =
        .ok (if j = 0 then "[" ++ toString p ++ "/" ++ toString m ++ "]"
          else "[" ++ toString p ++ "/" ++ toString m ++ " - " ++ toString j ++
            " joining]")) := by
  have render : ∀ n : Nat, n < 2 ^ 53 → numberToString rt (n : Int) = toString n := by
    intro n hn
    simp only [numberToString, Int.natAbs_ofNat, hn, if_true]
    rfl
  have general : formatStatusText rt (.num p) (.num m) (.num j) =
      .ok (if j = 0 then "[" ++ numberToString rt p ++ "/" ++ numberToString rt m ++ "]"
        else "[" ++ numberToString rt p ++ "/" ++ numberToString rt m ++ " - " ++
          numberToString rt j ++ " joining]") := by
    rcases Nat.eq_zero_or_pos j with h0 | hpos
    · subst h0
      simp [formatStatusText, jsToString, isGreaterThanZero, String.append_assoc]
    · have hne : j ≠ 0 := Nat.pos_iff_ne_zero.mp hpos
      simp [formatStatusText, jsToString, isGreaterThanZero, hpos, hne, String.append_assoc]
  refine ⟨general, fun hp hm hj => ?_⟩
  rw [general, render p hp, render m hm, render j hj]

/-- C1, at the inputs of the specification: `(45, 100, 0)` gives `[45/100]`
and `(45, 100, 3)` gives `[45/100 - 3 joining]`. -/
theorem formatStatusText_counts_witness :
    (45 < 2 ^ 53 ∧ 100 < 2 ^ 53 ∧ 3 < 2 ^ 53) ∧
    formatStatusText Runtime.sample (.num 45) (.num 100) (.num 0) = .ok "[45/100]" ∧
    formatStatusText Runtime.sample (.num 45) (.num 100) (.num 3) =
      .ok "[45/100 - 3 joining]" :=
  ⟨by decide,
    (formatStatusText_counts Runtime.sample 45 100 0).2 (by decide) (by decide) (by decide),
    (formatStatusText_counts Runtime.sample 45 100 3).2 (by decide) (by decide) (by decide)⟩

/-! ### Sequencing lemmas -/

theorem Run.lift_ok_andThen {α β : Type} (a : α) (f : α → Run β) :
    (Run.lift (.ok a)).andThen f = f a := rfl

theorem logInfo_andThen {β : Type} (message : String) (f : Unit → Run β) :
    (logInfo message).andThen f = ⟨.logInfo message :: (f ()).trace, (f ()).result⟩ := rfl

theorem logError_andThen {β : Type} (message : String) (error : Option JSError)
    (f : Unit → Run β) :
    (logError message error).andThen f =
      ⟨.logError message error :: (f ()).trace, (f ()).result⟩ := rfl

theorem Run.andThen_of_ok {α β : Type} (r : Run α) (f : α → Run β) (a : α)
    (h : r.result = .ok a) :
    r.andThen f = ⟨r.trace ++ (f a).trace, (f a).result⟩ := by
  simp [Run.andThen, h]

theorem Run.andThen_of_error {α β : Type} (r : Run α) (f : α → Run β) (e : JSError)
    (h : r.result = .error e) :
    r.andThen f = ⟨r.trace, .error e⟩ := by
  simp [Run.andThen, h]

/-! ### The publisher -/

theorem updatePresence_result (activityName : String) (activityType : ActivityType)
    (status : PresenceUpdateStatus) (outcome : PresenceOutcome) :
    (updatePresence activityName activityType status outcome).result = .ok () := by
  cases outcome <;> rfl

/-! ### The fetcher -/

theorem directAttributes_of_optional (rt : Runtime) (data a : JSValue)
    (h : optionalAttributes rt data = .ok a) (ht : truthy a = true) :
    directAttributes rt data = .ok a := by
  unfold optionalAttributes at h
  unfold directAttributes
  split at h
  · cases h; simp [truthy] at ht
  · cases hd : getProp rt data "data" with
    | error e => simp [hd] at h
    | ok inner =>
      simp only [hd] at h ⊢
      split at h
      · cases h; simp [truthy] at ht
      · exact h

theorem fetch_result (rt : Runtime) (cfg : Config) (serverId : Option String)
    (http : HttpOutcome) :
    (fetchBattleMetricsData rt cfg serverId http).result = .ok (deliveredDocument rt http) := by
  cases http with
  | failure error =>
    cases error <;> rfl
  | response status data =>
    by_cases hs : status = 200
    · subst hs
      cases ho : optionalAttributes rt data with
      | error e =>
        cases e <;>
          simp [fetchBattleMetricsData, deliveredDocument, logInfo, axiosGet,
            Run.andThen, Run.tryCatch, Run.lift, ho, logError, Run.pure]
      | ok a =>
        by_cases ht : truthy a = true
        · have hd := directAttributes_of_optional rt data a ho ht
          simp [fetchBattleMetricsData, deliveredDocument, logInfo, axiosGet,
            Run.andThen, Run.tryCatch, Run.lift, ho, ht, hd]
        · simp [fetchBattleMetricsData, deliveredDocument, logInfo, axiosGet,
            Run.andThen, Run.tryCatch, Run.lift, ho, ht, rejectResponse, logError, Run.pure]
    · simp [fetchBattleMetricsData, deliveredDocument, logInfo, axiosGet,
        Run.andThen, Run.tryCatch, hs, rejectResponse, logError, Run.pure]

theorem deliveredDocument_of_fails (rt : Runtime) (http : HttpOutcome)
    (h : FetchFails rt http) : deliveredDocument rt http = .null := by
  cases http with
  | failure error => rfl
  | response status data =>
    rcases h with h | h
    · simp [deliveredDocument, h]
    · simp [deliveredDocument, h, truthy]

/-- One cycle in terms of what the fetch delivered. -/
theorem refreshServerStatus_unfold (rt : Runtime) (cfg : Config) (http : HttpOutcome)
    (presence : PresenceOutcome) :
    refreshServerStatus rt cfg http presence =
      ⟨(fetchBattleMetricsData rt cfg cfg.battlemetricsServerId http).trace ++
          (if truthy (deliveredDocument rt http) then
            processAttributes rt cfg (deliveredDocument rt http) presence
          else updatePresence "API Error" .watching .doNotDisturb presence).trace,
        (if truthy (deliveredDocument rt http) then
            processAttributes rt cfg (deliveredDocument rt http) presence
          else updatePresence "API Error" .watching .doNotDisturb presence).result⟩ := by
  unfold refreshServerStatus
  exact Run.andThen_of_ok _ _ _ (fetch_result rt cfg cfg.battlemetricsServerId http)

/-- The fetcher only logs and issues the GET: it never touches the presence
and never schedules a timer. -/
theorem fetch_trace_quiet (rt : Runtime) (cfg : Config) (serverId : Option String)
    (http : HttpOutcome) :
    (fetchBattleMetricsData rt cfg serverId http).trace.any Event.isSetPresence = false ∧
    (fetchBattleMetricsData rt cfg serverId http).trace.any Event.isSetInterval = false := by
  cases http with
  | failure error =>
    cases error <;> exact ⟨rfl, rfl⟩
  | response status data =>
    by_cases hs : status = 200
    · subst hs
      cases ho : optionalAttributes rt data with
      | error e =>
        cases e <;>
          simp [fetchBattleMetricsData, logInfo, axiosGet, Run.andThen, Run.tryCatch, Run.lift,
            ho, logError, Run.pure, Event.isSetPresence, Event.isSetInterval]
      | ok a =>
        by_cases ht : truthy a = true
        · have hd := directAttributes_of_optional rt data a ho ht
          simp [fetchBattleMetricsData, logInfo, axiosGet, Run.andThen, Run.tryCatch, Run.lift,
            ho, ht, hd, Event.isSetPresence, Event.isSetInterval]
        · simp [fetchBattleMetricsData, logInfo, axiosGet, Run.andThen, Run.tryCatch, Run.lift,
            ho, ht, rejectResponse, logError, Run.pure, Event.isSetPresence,
            Event.isSetInterval]
    · simp [fetchBattleMetricsData, logInfo, axiosGet, Run.andThen, Run.tryCatch, hs,
        rejectResponse, logError, Run.pure, Event.isSetPresence, Event.isSetInterval]

/-- C3: when the fetch fails (the request fails, the status is not 200, or
the body has no `data.attributes`), a cycle does nothing after the fetch but
call the publisher with "API Error", watching, do-not-disturb; it completes
normally, and the fetch itself sets no presence. -/
theorem refreshServerStatus_fetch_failure (rt : Runtime) (cfg : Config) (http : HttpOutcome)
    (presence : PresenceOutcome) (h : FetchFails rt http) :
    refreshServerStatus rt cfg http presence =
      ⟨(fetchBattleMetricsData rt cfg cfg.battlemetricsServerId http).trace ++
          (updatePresence "API Error" .watching .doNotDisturb presence).trace, .ok ()⟩ ∧
    (fetchBattleMetricsData rt cfg cfg.battlemetricsServerId http).trace.any
      Event.isSetPresence = false := by
  refine ⟨?_, (fetch_trace_quiet rt cfg cfg.battlemetricsServerId http).1⟩
  rw [refreshServerStatus_unfold, deliveredDocument_of_fails rt http h]
  simp [truthy, updatePresence_result]

/-- C3 at a 204 response with an empty body: the trace of the cycle is the
fetch log, the GET, the error log and the "API Error" presence. -/
theorem refreshServerStatus_fetch_failure_witness :
    FetchFails Runtime.sample (.response 204 (.str "")) ∧
    (refreshServerStatus Runtime.sample sampleConfig (.response 204 (.str "")) .done).trace =
      [.logInfo "Fetching data from BattleMetrics for server 12345...",
        .httpGet "https://api.battlemetrics.com/servers/12345" 10000,
        .logError "Received invalid data structure or non-200 status (204) from BattleMetrics."
          none,
        .setPresence "API Error" .watching .doNotDisturb] :=
  ⟨Or.inl (by decide),
    congrArg Run.trace (refreshServerStatus_fetch_failure Runtime.sample sampleConfig
      (.response 204 (.str "")) .done (Or.inl (by decide))).1⟩

/-- C8 as stated fails: a 200 response whose `data.attributes` is the string
"up", which is not an object, is returned to the caller as the document; and
a 200 response whose body does contain `data.attributes`, holding the number
0, gives `null`. -/
theorem fetch_returns_non_object :
    isObject (.str "up") = false ∧
    (fetchBattleMetricsData Runtime.sample sampleConfig (some "12345")
      (.response 200 (bodyOf (.str "up")))).result = .ok (.str "up") ∧
    optionalAttributes Runtime.sample (bodyOf (.num 0)) = .ok (.num 0) ∧
    (fetchBattleMetricsData Runtime.sample sampleConfig (some "12345")
      (.response 200 (bodyOf (.num 0)))).result = .ok .null :=
  ⟨rfl, rfl, rfl, rfl⟩

/-- C8, amended: the fetcher returns `data.attributes` of a 200 response
whenever that value is truthy (every object is), it returns `null` in every
other case, and it never raises. -/
theorem fetch_returns_truthy_attributes (rt : Runtime) (cfg : Config)
    (serverId : Option String) :
    (∀ data a, optionalAttributes rt data = .ok a → truthy a = true →
      (fetchBattleMetricsData rt cfg serverId (.response 200 data)).result = .ok a) ∧
    (∀ data fields, optionalAttributes rt data = .ok (.obj fields) →
      (fetchBattleMetricsData rt cfg serverId (.response 200 data)).result =
        .ok (.obj fields)) ∧
    (∀ http, (¬ ∃ data a, http = .response 200 data ∧ optionalAttributes rt data = .ok a ∧
        truthy a = true) →
      (fetchBattleMetricsData rt cfg serverId http).result = .ok .null) ∧
    (∀ http, ∃ v, (fetchBattleMetricsData rt cfg serverId http).result = .ok v) := by
  refine ⟨?_, ?_, ?_, ?_⟩
  · intro data a ho ht
    rw [fetch_result]
    simp [deliveredDocument, ho, ht]
  · intro data fields ho
    rw [fetch_result]
    simp [deliveredDocument, ho, truthy]
  · intro http hn
    rw [fetch_result]
    cases http with
    | failure error => rfl
    | response status data =>
      by_cases hs : status = 200
      · subst hs
        cases ho : optionalAttributes rt data with
        | error e => simp [deliveredDocument, ho]
        | ok a =>
          by_cases ht : truthy a = true
          · exact absurd ⟨data, a, rfl, ho, ht⟩ hn
          · simp [deliveredDocument, ho, ht]
      · simp [deliveredDocument, hs]
  · intro http
    exact ⟨_, fetch_result rt cfg serverId http⟩

/-- C8, amended, at concrete responses: an attributes object is returned as
it is, and a 200 response without `data.attributes` gives `null`. -/
theorem fetch_returns_truthy_attributes_witness :
    (fetchBattleMetricsData Runtime.sample sampleConfig (some "12345")
      (.response 200 (bodyOf (.obj [("players", .num 3)])))).result =
        .ok (.obj [("players", .num 3)]) ∧
    (fetchBattleMetricsData Runtime.sample sampleConfig (some "12345")
      (.response 200 (.obj [("data", .obj [])]))).result = .ok .null :=
  ⟨(fetch_returns_truthy_attributes Runtime.sample sampleConfig (some "12345")).2.1
      (bodyOf (.obj [("players", .num 3)])) [("players", .num 3)] rfl,
    (fetch_returns_truthy_attributes Runtime.sample sampleConfig (some "12345")).2.2.1
      (.response 200 (.obj [("data", .obj [])]))
      (by
        rintro ⟨data, a, hd, ho, ht⟩
        cases hd
        have : optionalAttributes Runtime.sample (.obj [("data", .obj [])]) = .ok .undefined :=
          rfl
        rw [this] at ho
        cases ho
        simp [truthy] at ht)⟩

/-! ### The cycle on a fetched document -/

theorem processAttributes_of_reads (rt : Runtime) (cfg : Config) (attributes p m n j : JSValue)
    (presence : PresenceOutcome) (h : Reads rt cfg attributes p m n j) :
    processAttributes rt cfg attributes presence =
      if isNotAvailable (nullishOr p (.str "N/A")) ||
          isNotAvailable (nullishOr m (.str "N/A")) then
        (Run.lift (jsToString rt (logicalOr n (.str "Unknown Server")))).andThen fun nameText =>
        (logError ("Could not extract player counts from API response for server " ++ nameText)
          none).andThen fun _ =>
        updatePresence "Data Error" .watching .doNotDisturb presence
      else
        (Run.lift (formatStatusText rt (nullishOr p (.str "N/A")) (nullishOr m (.str "N/A"))
          j)).andThen fun statusText =>
        (Run.lift (jsToString rt (logicalOr n (.str "Unknown Server")))).andThen fun nameText =>
        (logInfo ("Server: " ++ nameText ++ " | Status: " ++ statusText)).andThen fun _ =>
        updatePresence statusText .listening .online presence := by
  obtain ⟨hp, hm, hn, hj⟩ := h
  unfold processAttributes
  rw [hp, hm, hn, hj]
  rfl

theorem deliveredDocument_of_fetched (rt : Runtime) (cfg : Config) (http : HttpOutcome)
    (attributes : JSValue)
    (h : (fetchBattleMetricsData rt cfg cfg.battlemetricsServerId http).result = .ok attributes) :
    deliveredDocument rt http = attributes := by
  rw [fetch_result] at h
  exact Except.ok.inj h

theorem isNotAvailable_of_nullish (v : JSValue) (h : isNullish v = true) :
    isNotAvailable (nullishOr v (.str "N/A")) = true := by
  simp [nullishOr, h, isNotAvailable]

theorem nullishOr_of_number (v d : JSValue) (h : isNumber v = true) : nullishOr v d = v := by
  cases v <;> simp [isNumber] at h <;> rfl

theorem isNotAvailable_of_number (v : JSValue) (h : isNumber v = true) :
    isNotAvailable v = false := by
  cases v <;> simp [isNumber] at h <;> rfl

/-- C2 as stated fails: in this fetched document `players` and `maxPlayers`
are missing, yet the cycle sets no presence at all: rendering the name for the
error log raises, and the cycle ends there. -/
theorem dataError_unpublished :
    getProp Runtime.sample unprintableName "players" = .ok .undefined ∧
    (refreshServerStatus Runtime.sample sampleConfig (.response 200 (bodyOf unprintableName))
      .done).trace.any Event.isSetPresence = false ∧
    (refreshServerStatus Runtime.sample sampleConfig (.response 200 (bodyOf unprintableName))
      .done).result = .error cannotConvert :=
  ⟨rfl, rfl, rfl⟩

/-- C2, amended: for a fetched document whose reads succeed, in which
`players` or `maxPlayers` is missing (undefined or null) and whose name can
be rendered as text, a cycle logs the extraction failure, calls the publisher
with "Data Error", watching, do-not-disturb, does nothing else after the
fetch, and completes normally. -/
theorem refreshServerStatus_data_error (rt : Runtime) (cfg : Config) (http : HttpOutcome)
    (presence : PresenceOutcome) (attributes p m n j : JSValue) (nameText : String)
    (hfetch : (fetchBattleMetricsData rt cfg cfg.battlemetricsServerId http).result =
      .ok attributes)
    (htruthy : truthy attributes = true)
    (hreads : Reads rt cfg attributes p m n j)
    (hmissing : isNullish p = true ∨ isNullish m = true)
    (hname : jsToString rt (logicalOr n (.str "Unknown Server")) = .ok nameText) :
    refreshServerStatus rt cfg http presence =
      ⟨(fetchBattleMetricsData rt cfg cfg.battlemetricsServerId http).trace ++
        (.logError ("Could not extract player counts from API response for server " ++
            nameText) none ::
          (updatePresence "Data Error" .watching .doNotDisturb presence).trace), .ok ()⟩ := by
  have hna : (isNotAvailable (nullishOr p (.str "N/A")) ||
      isNotAvailable (nullishOr m (.str "N/A"))) = true := by
    rcases hmissing with h | h
    · simp [isNotAvailable_of_nullish p h]
    · simp [isNotAvailable_of_nullish m h]
  rw [refreshServerStatus_unfold, deliveredDocument_of_fetched rt cfg http attributes hfetch,
    htruthy, if_pos rfl, processAttributes_of_reads rt cfg attributes p m n j presence hreads,
    if_pos hna, hname, Run.lift_ok_andThen, logError_andThen, updatePresence_result]

/-- C2, amended, at a document that has a name and a capacity but no
`players`: the cycle publishes "Data Error". -/
theorem refreshServerStatus_data_error_witness :
    (refreshServerStatus Runtime.sample sampleConfig
      (.response 200 (bodyOf (.obj [("name", .str "EU Main"), ("maxPlayers", .num 100)])))
      .done).trace =
      [.logInfo "Fetching data from BattleMetrics for server 12345...",
        .httpGet "https://api.battlemetrics.com/servers/12345" 10000,
        .logError "Could not extract player counts from API response for server EU Main" none,
        .setPresence "Data Error" .watching .doNotDisturb] :=
  congrArg Run.trace (refreshServerStatus_data_error Runtime.sample sampleConfig
    (.response 200 (bodyOf (.obj [("name", .str "EU Main"), ("maxPlayers", .num 100)])))
    .done (.obj [("name", .str "EU Main"), ("maxPlayers", .num 100)])
    .undefined (.num 100) (.str "EU Main") (.num 0) "EU Main"
    rfl rfl ⟨rfl, rfl, rfl, rfl⟩ (Or.inl rfl) rfl)

/-- C4 as stated fails: in this fetched document `players` and `maxPlayers`
are present numbers and the status text is well defined, yet the cycle sets no
presence: rendering the name for the log line raises first. -/
theorem status_unpublished :
    getProp Runtime.sample countsWithUnprintableName "players" = .ok (.num 45) ∧
    getProp Runtime.sample countsWithUnprintableName "maxPlayers" = .ok (.num 100) ∧
    formatStatusText Runtime.sample (.num 45) (.num 100) (.num 0) = .ok "[45/100]" ∧
    (refreshServerStatus Runtime.sample sampleConfig
      (.response 200 (bodyOf countsWithUnprintableName)) .done).trace.any
        Event.isSetPresence = false :=
  ⟨rfl, rfl, rfl, rfl⟩

/-- C4, amended: for a fetched document whose reads succeed with `players`
and `maxPlayers` numbers (zero included), whenever the status text
`formatStatusText(players, maxPlayers, joining)` and the name can be rendered,
a cycle logs the status, calls the publisher with that status text, listening,
online, does nothing else after the fetch, and completes normally. -/
theorem refreshServerStatus_normal (rt : Runtime) (cfg : Config) (http : HttpOutcome)
    (presence : PresenceOutcome) (attributes p m n j : JSValue) (statusText nameText : String)
    (hfetch : (fetchBattleMetricsData rt cfg cfg.battlemetricsServerId http).result =
      .ok attributes)
    (htruthy : truthy attributes = true)
    (hreads : Reads rt cfg attributes p m n j)
    (hp : isNumber p = true) (hm : isNumber m = true)
    (hstatus : formatStatusText rt p m j = .ok statusText)
    (hname : jsToString rt (logicalOr n (.str "Unknown Server")) = .ok nameText) :
    refreshServerStatus rt cfg http presence =
      ⟨(fetchBattleMetricsData rt cfg cfg.battlemetricsServerId http).trace ++
        (.logInfo ("Server: " ++ nameText ++ " | Status: " ++ statusText) ::
          (updatePresence statusText .listening .online presence).trace), .ok ()⟩ := by
  have hna : (isNotAvailable (nullishOr p (.str "N/A")) ||
      isNotAvailable (nullishOr m (.str "N/A"))) = false := by
    rw [nullishOr_of_number p _ hp, nullishOr_of_number m _ hm,
      isNotAvailable_of_number p hp, isNotAvailable_of_number m hm]
    rfl
  rw [refreshServerStatus_unfold, deliveredDocument_of_fetched rt cfg http attributes hfetch,
    htruthy, if_pos rfl, processAttributes_of_reads rt cfg attributes p m n j presence hreads,
    hna, nullishOr_of_number p _ hp, nullishOr_of_number m _ hm, hstatus, hname]
  simp only [Bool.false_eq_true, if_false, Run.lift_ok_andThen, logInfo_andThen,
    updatePresence_result]

/-- C4, amended, at the boundary of the specification: zero players, zero
capacity and nobody joining publish "[0/0]", not "Data Error". -/
theorem refreshServerStatus_normal_witness :
    (refreshServerStatus Runtime.sample sampleConfig (.response 200 (bodyOf emptyServer))
      .done).trace =
      [.logInfo "Fetching data from BattleMetrics for server 12345...",
        .httpGet "https://api.battlemetrics.com/servers/12345" 10000,
        .logInfo "Server: Unknown Server | Status: [0/0]",
        .setPresence "[0/0]" .listening .online] :=
  congrArg Run.trace (refreshServerStatus_normal Runtime.sample sampleConfig
    (.response 200 (bodyOf emptyServer)) .done emptyServer
    (.num 0) (.num 0) .undefined (.num 0) "[0/0]" "Unknown Server"
    rfl rfl ⟨rfl, rfl, rfl, rfl⟩ rfl rfl rfl rfl)

/-! ### Completion of a cycle -/

theorem jsToString_of_primitive (rt : Runtime) (v : JSValue) (h : isPrimitive v = true) :
    ∃ s, jsToString rt v = .ok s := by
  cases v <;> first | exact ⟨_, rfl⟩ | simp [isPrimitive] at h

theorem isGreaterThanZero_of_primitive (rt : Runtime) (v : JSValue)
    (h : isPrimitive v = true) : ∃ b, isGreaterThanZero rt v = .ok b := by
  cases v <;> first | exact ⟨_, rfl⟩ | simp [isPrimitive] at h

theorem formatStatusText_of_primitive (rt : Runtime) (p m j : JSValue)
    (hp : isPrimitive p = true) (hm : isPrimitive m = true) (hj : isPrimitive j = true) :
    ∃ s, formatStatusText rt p m j = .ok s := by
  obtain ⟨sp, hsp⟩ := jsToString_of_primitive rt p hp
  obtain ⟨sm, hsm⟩ := jsToString_of_primitive rt m hm
  obtain ⟨sj, hsj⟩ := jsToString_of_primitive rt j hj
  obtain ⟨b, hb⟩ := isGreaterThanZero_of_primitive rt j hj
  cases b <;> simp [formatStatusText, hsp, hsm, hsj, hb]

theorem isPrimitive_nullishOr (v d : JSValue) (hv : isPrimitive v = true)
    (hd : isPrimitive d = true) : isPrimitive (nullishOr v d) = true := by
  unfold nullishOr
  split <;> assumption

theorem isPrimitive_logicalOr (v d : JSValue) (hv : isPrimitive v = true)
    (hd : isPrimitive d = true) : isPrimitive (logicalOr v d) = true := by
  unfold logicalOr
  split <;> assumption

theorem processAttributes_result_of_primitive (rt : Runtime) (cfg : Config)
    (attributes p m n j : JSValue) (presence : PresenceOutcome)
    (hreads : Reads rt cfg attributes p m n j)
    (hp : isPrimitive p = true) (hm : isPrimitive m = true) (hn : isPrimitive n = true)
    (hj : isPrimitive j = true) :
    (processAttributes rt cfg attributes presence).result = .ok () := by
  obtain ⟨nameText, hname⟩ := jsToString_of_primitive rt (logicalOr n (.str "Unknown Server"))
    (isPrimitive_logicalOr n _ hn rfl)
  obtain ⟨statusText, hstatus⟩ := formatStatusText_of_primitive rt
    (nullishOr p (.str "N/A")) (nullishOr m (.str "N/A")) j
    (isPrimitive_nullishOr p _ hp rfl) (isPrimitive_nullishOr m _ hm rfl) hj
  rw [processAttributes_of_reads rt cfg attributes p m n j presence hreads]
  split
  · rw [hname, Run.lift_ok_andThen, logError_andThen]
    exact updatePresence_result _ _ _ _
  · rw [hstatus, Run.lift_ok_andThen, hname, Run.lift_ok_andThen, logInfo_andThen]
    exact updatePresence_result _ _ _ _

/-- C10 as stated fails: the fetch succeeds, the publisher is never reached,
and the cycle raises a TypeError while rendering the name of this document. -/
theorem refreshServerStatus_raises :
    (fetchBattleMetricsData Runtime.sample sampleConfig sampleConfig.battlemetricsServerId
      (.response 200 (bodyOf countsWithUnprintableName))).result =
        .ok countsWithUnprintableName ∧
    (refreshServerStatus Runtime.sample sampleConfig
      (.response 200 (bodyOf countsWithUnprintableName)) .done).result =
        .error cannotConvert :=
  ⟨rfl, rfl⟩

/-- C10, amended: `updatePresence` completes normally for every text,
category, status and outcome of the client call; a cycle completes normally
whenever the fetch fails, and whenever the reads of the fetched document
succeed with primitive values, whatever the outcome of the publish. -/
theorem presence_best_effort :
    (∀ activityName activityType status outcome,
      (updatePresence activityName activityType status outcome).result = .ok ()) ∧
    (∀ rt cfg http presence,
      (fetchBattleMetricsData rt cfg cfg.battlemetricsServerId http).result = .ok .null →
      (refreshServerStatus rt cfg http presence).result = .ok ()) ∧
    (∀ rt cfg http presence attributes p m n j,
      (fetchBattleMetricsData rt cfg cfg.battlemetricsServerId http).result = .ok attributes →
      Reads rt cfg attributes p m n j →
      isPrimitive p = true → isPrimitive m = true → isPrimitive n = true →
      isPrimitive j = true →
      (refreshServerStatus rt cfg http presence).result = .ok ()) := by
  refine ⟨updatePresence_result, ?_, ?_⟩
  · intro rt cfg http presence hnull
    rw [refreshServerStatus_unfold, deliveredDocument_of_fetched rt cfg http _ hnull]
    exact updatePresence_result _ _ _ _
  · intro rt cfg http presence attributes p m n j hfetch hreads hp hm hn hj
    rw [refreshServerStatus_unfold, deliveredDocument_of_fetched rt cfg http _ hfetch]
    split
    · exact processAttributes_result_of_primitive rt cfg _ p m n j presence hreads hp hm hn hj
    · exact updatePresence_result _ _ _ _

/-- C10, amended, at concrete cycles: a refused connection with a failing
client call, and a document of plain counts with a failing client call, both
complete normally. -/
theorem presence_best_effort_witness :
    (refreshServerStatus Runtime.sample sampleConfig
      (.failure (.axios "connect ECONNREFUSED" none))
      (.failure (.error "Error" "Shard not ready"))).result = .ok () ∧
    (refreshServerStatus Runtime.sample sampleConfig (.response 200 (bodyOf emptyServer))
      (.failure (.error "Error" "Shard not ready"))).result = .ok () :=
  ⟨presence_best_effort.2.1 Runtime.sample sampleConfig
      (.failure (.axios "connect ECONNREFUSED" none))
      (.failure (.error "Error" "Shard not ready")) rfl,
    presence_best_effort.2.2 Runtime.sample sampleConfig (.response 200 (bodyOf emptyServer))
      (.failure (.error "Error" "Shard not ready")) emptyServer (.num 0) (.num 0) .undefined
      (.num 0) rfl ⟨rfl, rfl, rfl, rfl⟩ rfl rfl rfl rfl⟩

/-! ### Startup -/

theorem Run.andThen_quiet {α β : Type} (q : Event → Bool) (r : Run α) (f : α → Run β)
    (hr : r.trace.any q = false) (hf : ∀ a, (f a).trace.any q = false) :
    (r.andThen f).trace.any q = false := by
  unfold Run.andThen
  cases r.result with
  | error e => exact hr
  | ok a => simp only [List.any_append, hr, hf a, Bool.or_self]

theorem updatePresence_no_timer (activityName : String) (activityType : ActivityType)
    (status : PresenceUpdateStatus) (outcome : PresenceOutcome) :
    (updatePresence activityName activityType status outcome).trace.any
      Event.isSetInterval = false := by
  cases outcome <;> rfl

theorem processAttributes_no_timer (rt : Runtime) (cfg : Config) (attributes : JSValue)
    (presence : PresenceOutcome) :
    (processAttributes rt cfg attributes presence).trace.any Event.isSetInterval = false := by
  unfold processAttributes
  refine Run.andThen_quiet _ _ _ rfl fun rawPlayers => ?_
  refine Run.andThen_quiet _ _ _ rfl fun rawMaxPlayers => ?_
  refine Run.andThen_quiet _ _ _ rfl fun rawName => ?_
  refine Run.andThen_quiet _ _ _ rfl fun joiningPlayers => ?_
  dsimp only
  split
  · refine Run.andThen_quiet _ _ _ rfl fun nameText => ?_
    refine Run.andThen_quiet _ _ _ rfl fun _ => ?_
    exact updatePresence_no_timer _ _ _ _
  · refine Run.andThen_quiet _ _ _ rfl fun statusText => ?_
    refine Run.andThen_quiet _ _ _ rfl fun nameText => ?_
    refine Run.andThen_quiet _ _ _ rfl fun _ => ?_
    exact updatePresence_no_timer _ _ _ _

theorem refreshServerStatus_no_timer (rt : Runtime) (cfg : Config) (http : HttpOutcome)
    (presence : PresenceOutcome) :
    (refreshServerStatus rt cfg http presence).trace.any Event.isSetInterval = false := by
  unfold refreshServerStatus
  refine Run.andThen_quiet _ _ _ (fetch_trace_quiet rt cfg _ http).2 fun attributes => ?_
  split
  · exact processAttributes_no_timer rt cfg attributes presence
  · exact updatePresence_no_timer _ _ _ _

/-- C9 as stated fails: the first cycle raises on this document, the handler
publishes "Init Error", and no repeating timer is scheduled. -/
theorem init_error_without_timer :
    (refreshServerStatus Runtime.sample sampleConfig
      (.response 200 (bodyOf countsWithUnprintableName)) .done).result =
        .error cannotConvert ∧
    onReady Runtime.sample sampleConfig "monitor#0001"
      (.response 200 (bodyOf countsWithUnprintableName)) .done .done =
      ⟨[.logInfo "Logged in as monitor#0001",
        .logInfo "Starting status updates for server ID 12345 every 60 seconds.",
        .logInfo "Fetching data from BattleMetrics for server 12345...",
        .httpGet "https://api.battlemetrics.com/servers/12345" 10000,
        .logError "Error during initial status update." (some cannotConvert),
        .setPresence "Init Error" .watching .doNotDisturb], .ok ()⟩ ∧
    (onReady Runtime.sample sampleConfig "monitor#0001"
      (.response 200 (bodyOf countsWithUnprintableName)) .done .done).trace.any
        Event.isSetInterval = false :=
  ⟨rfl, rfl, rfl⟩

/-- C9, amended: if the first cycle raises, the handler logs the error, calls
the publisher with "Init Error", watching, do-not-disturb, completes normally
and schedules no repeating timer; if the first cycle completes normally, the
handler schedules the timer with the configured interval as its last act. -/
theorem onReady_first_cycle (rt : Runtime) (cfg : Config) (userTag : String)
    (http : HttpOutcome) (first onError : PresenceOutcome) :
    (∀ e, (refreshServerStatus rt cfg http first).result = .error e →
      onReady rt cfg userTag http first onError =
        ⟨.logInfo ("Logged in as " ++ userTag) ::
          .logInfo ("Starting status updates for server ID " ++
            settingToString cfg.battlemetricsServerId ++ " every " ++
            intervalSeconds rt cfg.updateIntervalMs ++ " seconds.") ::
          ((refreshServerStatus rt cfg http first).trace ++
            (.logError "Error during initial status update." (some e) ::
              (updatePresence "Init Error" .watching .doNotDisturb onError).trace)),
          .ok ()⟩ ∧
      (onReady rt cfg userTag http first onError).trace.any Event.isSetInterval = false) ∧
    ((refreshServerStatus rt cfg http first).result = .ok () →
      onReady rt cfg userTag http first onError =
        ⟨.logInfo ("Logged in as " ++ userTag) ::
          .logInfo ("Starting status updates for server ID " ++
            settingToString cfg.battlemetricsServerId ++ " every " ++
            intervalSeconds rt cfg.updateIntervalMs ++ " seconds.") ::
          ((refreshServerStatus rt cfg http first).trace ++
            [.setInterval cfg.updateIntervalMs]), .ok ()⟩) := by
  constructor
  · intro e he
    have heq : onReady rt cfg userTag http first onError =
        ⟨.logInfo ("Logged in as " ++ userTag) ::
          .logInfo ("Starting status updates for server ID " ++
            settingToString cfg.battlemetricsServerId ++ " every " ++
            intervalSeconds rt cfg.updateIntervalMs ++ " seconds.") ::
          ((refreshServerStatus rt cfg http first).trace ++
            (.logError "Error during initial status update." (some e) ::
              (updatePresence "Init Error" .watching .doNotDisturb onError).trace)),
          .ok ()⟩ := by
      unfold onReady
      rw [logInfo_andThen, logInfo_andThen, Run.andThen_of_error _ _ e he]
      simp only [Run.tryCatch, logError_andThen, updatePresence_result]
    refine ⟨heq, ?_⟩
    rw [heq]
    simp only [List.any_cons, List.any_append, Event.isSetInterval,
      refreshServerStatus_no_timer, updatePresence_no_timer, Bool.or_self]
  · intro hok
    unfold onReady
    rw [logInfo_andThen, logInfo_andThen, Run.andThen_of_ok _ _ () hok]
    rfl

/-- C9, amended, at a first cycle that raises: the hypothesis holds for the
document with the unprintable name, and the handler ends without a timer. -/
theorem onReady_first_cycle_witness :
    (refreshServerStatus Runtime.sample sampleConfig
      (.response 200 (bodyOf countsWithUnprintableName)) .done).result =
        .error cannotConvert ∧
    (onReady Runtime.sample sampleConfig "monitor#0001"
      (.response 200 (bodyOf countsWithUnprintableName)) .done .noUser).trace.any
        Event.isSetInterval = false ∧
    onReady Runtime.sample sampleConfig "monitor#0001"
      (.response 200 (bodyOf emptyServer)) .done .done =
      ⟨[.logInfo "Logged in as monitor#0001",
        .logInfo "Starting status updates for server ID 12345 every 60 seconds.",
        .logInfo "Fetching data from BattleMetrics for server 12345...",
        .httpGet "https://api.battlemetrics.com/servers/12345" 10000,
        .logInfo "Server: Unknown Server | Status: [0/0]",
        .setPresence "[0/0]" .listening .online,
        .setInterval (some 60000)], .ok ()⟩ :=
  ⟨rfl,
    ((onReady_first_cycle Runtime.sample sampleConfig "monitor#0001"
      (.response 200 (bodyOf countsWithUnprintableName)) .done .noUser).1
      cannotConvert rfl).2,
    (onReady_first_cycle Runtime.sample sampleConfig "monitor#0001"
      (.response 200 (bodyOf emptyServer)) .done .done).2 rfl⟩

/-! ### Dotted paths -/

theorem reduceKeys_undefined (rt : Runtime) (keys : List String) :
    reduceKeys rt .undefined keys = .ok .undefined := by
  induction keys with
  | nil => rfl
  | cons key rest ih => simpa [reduceKeys, nestedStep, truthy] using ih

theorem nestedStep_own (rt : Runtime) (fields : List (String × JSValue)) (key : String)
    (next : JSValue) (h : ownField fields key = some next) :
    nestedStep rt (.obj fields) key = .ok next := by
  cases next <;> simp [nestedStep, truthy, getProp, h]

theorem reduceKeys_of_storedAt (rt : Runtime) (keys : List String) :
    ∀ (value v : JSValue), storedAt value keys = some v → reduceKeys rt value keys = .ok v := by
  induction keys with
  | nil =>
    intro value v h
    simp only [storedAt, Option.some.injEq] at h
    simp [reduceKeys, h]
  | cons key rest ih =>
    intro value v h
    cases value with
    | obj fields =>
      cases hown : ownField fields key with
      | none => simp [storedAt, hown] at h
      | some next =>
        simp only [storedAt, hown] at h
        simp only [reduceKeys, nestedStep_own rt fields key next hown]
        exact ih next v h
    | _ => simp [storedAt] at h

theorem nestedStep_absent (rt : Runtime) (w : JSValue) (key : String)
    (hown : ∀ fields, w = .obj fields → ownField fields key = none)
    (h : truthy w = false ∨ rt.builtin w key = .ok .undefined) :
    nestedStep rt w key = .ok .undefined := by
  by_cases ht : truthy w = true
  · have hb : rt.builtin w key = .ok .undefined := by
      rcases h with h | h
      · rw [ht] at h; cases h
      · exact h
    cases w with
    | obj fields => simp [nestedStep, truthy, getProp, hown fields rfl, hb]
    | undefined => simp [truthy] at ht
    | null => simp [truthy] at ht
    | _ => simp [nestedStep, ht, getProp, hb]
  · simp [nestedStep, ht]

theorem reduceKeys_of_firstAbsent (rt : Runtime) (keys : List String) :
    ∀ (value w : JSValue) (key : String), firstAbsent value keys = some (w, key) →
      (truthy w = false ∨ rt.builtin w key = .ok .undefined) →
      reduceKeys rt value keys = .ok .undefined := by
  induction keys with
  | nil =>
    intro value w key h
    simp [firstAbsent] at h
  | cons k rest ih =>
    intro value w key h hb
    cases value with
    | obj fields =>
      cases hown : ownField fields k with
      | some next =>
        simp only [firstAbsent, hown] at h
        simp only [reduceKeys, nestedStep_own rt fields k next hown]
        exact ih next w key h hb
      | none =>
        simp only [firstAbsent, hown, Option.some.injEq, Prod.mk.injEq] at h
        obtain ⟨hw, hk⟩ := h
        subst hw
        subst hk
        have hstep := nestedStep_absent rt (.obj fields) k
          (fun fields2 heq => by cases heq; exact hown) hb
        simp only [reduceKeys, hstep]
        exact reduceKeys_undefined rt rest
    | undefined =>
      simp only [reduceKeys, nestedStep, truthy]
      exact reduceKeys_undefined rt rest
    | null =>
      simp only [reduceKeys, nestedStep, truthy]
      exact reduceKeys_undefined rt rest
    | _ =>
      simp only [firstAbsent, Option.some.injEq, Prod.mk.injEq] at h
      obtain ⟨hw, hk⟩ := h
      subst hw
      subst hk
      have hstep := nestedStep_absent rt _ k (fun fields2 heq => by cases heq) hb
      simp only [reduceKeys, hstep]
      exact reduceKeys_undefined rt rest

/-- C5 as stated fails twice: every segment of "a" is present in `{a: null}`
and the value stored there is null, yet the joining count resolves to 0; and
the segment "constructor" is absent from `{a: {b: {}}}` under "a.b", yet the
count resolves to what every plain object inherits under that name, not to 0. -/
theorem joining_not_stored_value :
    storedAt nullLeaf (splitPath "a") = some .null ∧
    resolveJoining Runtime.sample nullLeaf "a" = .ok (.num 0) ∧
    storedAt nestedEmpty (splitPath "a.b.constructor") = none ∧
    resolveJoining Runtime.sample nestedEmpty "a.b.constructor" =
      .ok (.native "Object.prototype.constructor") :=
  ⟨rfl, rfl, rfl, rfl⟩

/-- C5, amended: the joining count `getNestedValue(document, path) ?? 0` is
the value stored at the path when every segment is present along the walk and
that value is not null; it is 0 when that value is null or undefined; and it
is 0 when a segment is absent, provided the value reached at that point is
falsy or the engine supplies no property of that name for it. -/
theorem resolveJoining_along_path (rt : Runtime) (attributes : JSValue) (path : String) :
    (∀ v, storedAt attributes (splitPath path) = some v → isNullish v = false →
      resolveJoining rt attributes path = .ok v) ∧
    (∀ v, storedAt attributes (splitPath path) = some v → isNullish v = true →
      resolveJoining rt attributes path = .ok (.num 0)) ∧
    (∀ w key, firstAbsent attributes (splitPath path) = some (w, key) →
      (truthy w = false ∨ rt.builtin w key = .ok .undefined) →
      resolveJoining rt attributes path = .ok (.num 0)) := by
  refine ⟨?_, ?_, ?_⟩
  · intro v hv hn
    simp [resolveJoining, getNestedValue, reduceKeys_of_storedAt rt _ _ _ hv, nullishOr, hn]
  · intro v hv hn
    simp [resolveJoining, getNestedValue, reduceKeys_of_storedAt rt _ _ _ hv, nullishOr, hn]
  · intro w key hw hb
    simp [resolveJoining, getNestedValue, reduceKeys_of_firstAbsent rt _ _ _ _ hw hb,
      nullishOr, isNullish]

/-- C5, amended, at the inputs of the specification: "a.b.c" resolves to 7
against `{a: {b: {c: 7}}}` and to 0 against `{a: {b: {}}}`. -/
theorem resolveJoining_along_path_witness :
    resolveJoining Runtime.sample nestedSeven "a.b.c" = .ok (.num 7) ∧
    resolveJoining Runtime.sample nestedEmpty "a.b.c" = .ok (.num 0) :=
  ⟨(resolveJoining_along_path Runtime.sample nestedSeven "a.b.c").1 (.num 7) rfl rfl,
    (resolveJoining_along_path Runtime.sample nestedEmpty "a.b.c").2.2 (.obj []) "c" rfl
      (Or.inr rfl)⟩

/-! ### Configuration -/

theorem isMissing_eq_false_iff (value : Option String) :
    isMissing value = false ↔ ∃ s, value = some s ∧ s ≠ "" := by
  cases value with
  | none => simp [isMissing]
  | some s => simp [isMissing]

theorem validateConfig_exit_cases (cfg : Config) :
    (validateConfig cfg).exit = none ∨ (validateConfig cfg).exit = some 1 := by
  unfold validateConfig
  cases ht : isMissing cfg.discordToken <;> cases hi : isMissing cfg.battlemetricsServerId <;>
    simp [List.filter, ht, hi]
  cases hms : cfg.updateIntervalMs with
  | none => simp [rejectInterval]
  | some ms =>
    by_cases hlt : ms < 15000
    · simp [hlt, rejectInterval]
    · simp [hlt]

theorem validateConfig_exit_none_iff (cfg : Config) :
    (validateConfig cfg).exit = none ↔
      (isMissing cfg.discordToken = false ∧ isMissing cfg.battlemetricsServerId = false ∧
        ∃ ms, cfg.updateIntervalMs = some ms ∧ 15000 ≤ ms) := by
  unfold validateConfig
  cases ht : isMissing cfg.discordToken <;> cases hi : isMissing cfg.battlemetricsServerId <;>
    simp [List.filter, ht, hi]
  cases hms : cfg.updateIntervalMs with
  | none => simp [rejectInterval]
  | some ms =>
    by_cases hlt : ms < 15000
    · simp [hlt, rejectInterval]
    · simp [hlt, not_lt.mp hlt]

/-- C6: `validateConfig` lets a configuration pass exactly when the
credential and the server identifier are non-empty and the interval is a
number of at least 15000 ms; otherwise it ends the process with status 1; an
interval of 10 seconds is rejected. -/
theorem validateConfig_passes_iff (cfg : Config) :
    ((validateConfig cfg).exit = none ↔
      ((∃ s, cfg.discordToken = some s ∧ s ≠ "") ∧
        (∃ s, cfg.battlemetricsServerId = some s ∧ s ≠ "") ∧
        ∃ ms, cfg.updateIntervalMs = some ms ∧ 15 * 1000 ≤ ms)) ∧
    ((validateConfig cfg).exit = none ∨ (validateConfig cfg).exit = some 1) ∧
    (cfg.updateIntervalMs = some (10 * 1000) → (validateConfig cfg).exit = some 1) := by
  refine ⟨?_, validateConfig_exit_cases cfg, ?_⟩
  · rw [validateConfig_exit_none_iff, isMissing_eq_false_iff, isMissing_eq_false_iff]
    norm_num
  · intro h10
    rcases validateConfig_exit_cases cfg with h | h
    · obtain ⟨-, -, ms, hms, hle⟩ := (validateConfig_exit_none_iff cfg).mp h
      rw [h10] at hms
      cases hms
      omega
    · exact h

/-- C6 at concrete records: the default interval passes and satisfies the
invariant, an interval of 10 seconds ends the process with status 1. -/
theorem validateConfig_passes_iff_witness :
    (validateConfig sampleConfig).exit = none ∧
    (validateConfig (config (envWithInterval (some "10")))).exit = some 1 :=
  ⟨(validateConfig_passes_iff sampleConfig).1.mpr
      ⟨⟨"token", rfl, by decide⟩, ⟨"12345", rfl, by decide⟩, 60000, rfl, by decide⟩,
    (validateConfig_passes_iff (config (envWithInterval (some "10")))).2.2 rfl⟩

/-- C7 as stated fails: the settings "15.5" and "20abc" are not integer
numbers of seconds, yet the loader accepts them, as 15 and 20 seconds. -/
theorem interval_non_integer_accepted :
    (validateConfig (config (envWithInterval (some "15.5")))).exit = none ∧
    (config (envWithInterval (some "15.5"))).updateIntervalMs = some 15000 ∧
    (validateConfig (config (envWithInterval (some "20abc")))).exit = none ∧
    (config (envWithInterval (some "20abc"))).updateIntervalMs = some 20000 :=
  ⟨rfl, rfl, rfl, rfl⟩

/-- C7, amended: with the credential and the server identifier set, the
loader accepts a poll-interval setting exactly when the integer that
`parseInt` reads from its start (white space, a sign, decimal digits, the rest
ignored) is at least 15; otherwise the process ends with status 1; an unset
or empty setting is read as "60", that is 60000 ms. -/
theorem interval_leading_integer (env : Env)
    (htoken : ∃ s, env.DISCORD_TOKEN = some s ∧ s ≠ "")
    (hid : ∃ s, env.BATTLEMETRICS_SERVER_ID = some s ∧ s ≠ "") :
    ((validateConfig (config env)).exit = none ↔
      ∃ n, parseInt10 (envOr env.UPDATE_INTERVAL_SECONDS "60") = some n ∧ 15 ≤ n) ∧
    ((validateConfig (config env)).exit = none ∨ (validateConfig (config env)).exit = some 1) ∧
    ((env.UPDATE_INTERVAL_SECONDS = none ∨ env.UPDATE_INTERVAL_SECONDS = some "") →
      (config env).updateIntervalMs = some (60 * 1000)) := by
  have htoken2 : isMissing (config env).discordToken = false :=
    (isMissing_eq_false_iff _).mpr htoken
  have hid2 : isMissing (config env).battlemetricsServerId = false :=
    (isMissing_eq_false_iff _).mpr hid
  refine ⟨?_, validateConfig_exit_cases _, ?_⟩
  · rw [validateConfig_exit_none_iff]
    constructor
    · rintro ⟨-, -, ms, hms, hle⟩
      cases hp : parseInt10 (envOr env.UPDATE_INTERVAL_SECONDS "60") with
      | none => simp [config, hp] at hms
      | some n =>
        simp only [config, hp, Option.map_some', Option.some.injEq] at hms
        exact ⟨n, rfl, by omega⟩
    · rintro ⟨n, hn, hle⟩
      refine ⟨htoken2, hid2, n * 1000, ?_, by omega⟩
      simp [config, hn]
  · rintro (h | h) <;> simp only [config, h, envOr] <;> rfl

/-- C7, amended, at concrete settings: "30" is accepted, "abc" has no leading
integer and is rejected, and an unset interval is 60000 ms. -/
theorem interval_leading_integer_witness :
    (validateConfig (config (envWithInterval (some "30")))).exit = none ∧
    (validateConfig (config (envWithInterval (some "abc")))).exit = some 1 ∧
    (config (envWithInterval none)).updateIntervalMs = some 60000 :=
  ⟨(interval_leading_integer (envWithInterval (some "30")) ⟨"token", rfl, by decide⟩
      ⟨"12345", rfl, by decide⟩).1.mpr ⟨30, rfl, by decide⟩,
    ((interval_leading_integer (envWithInterval (some "abc")) ⟨"token", rfl, by decide⟩
      ⟨"12345", rfl, by decide⟩).2.1).resolve_left (by decide),
    (interval_leading_integer (envWithInterval none) ⟨"token", rfl, by decide⟩
      ⟨"12345", rfl, by decide⟩).2.2 (Or.inl rfl)⟩

end ServerMonitor
